import Mathlib

/-!
Verification development for the InkFlow reader (src/gestures.js).

The file shallowly embeds the four classes the claims are about:
`GestureEngine` (pointer-event gesture recognition), `PdfRenderer`
(per-page render-task bookkeeping), `VirtualScroll` (page slot
rendering / eviction) and `Reader` (zoom/pan/paging transform).

Modelling conventions:
* JS numbers are modelled as exact rationals (`ℚ`).
* A JS `Map` / the insertion-ordered association of pointer ids (and of
  page render tasks) is modelled as an insertion-ordered association
  list with `jmapSet` / `jmapDelete` / `jmapGet` mirroring
  `Map.set` / `Map.delete` / `Map.get`.
* A JS `Set` of page numbers is an insertion-ordered duplicate-free
  list with `setAdd` / `setDelete`.
* `Math.sqrt` is modelled by `Rat.sqrt`, the exact rational square
  root; it agrees with the real square root on perfect squares, which
  covers every concrete input evaluated below.  The one comparison of
  a square root against a constant, `Math.sqrt(vx**2+vy**2) > 1.5` in
  `GestureEngine._onUp`, is translated to the real-equivalent
  `vx^2 + vy^2 > (3/2)^2` so that it stays exact on all of `ℚ`.
* Timer callbacks (`setTimeout` for long-press) and the
  `requestAnimationFrame` momentum loop are modelled as explicit
  events/iterations; a timer handle is a `Bool` flag.
-/

namespace InkFlow

/-! ### JS `Map` operations (insertion-ordered association list) -/

/-- `Map.prototype.set`: update in place if the key is present, else append. -/
def jmapSet {α : Type} (m : List (ℕ × α)) (k : ℕ) (v : α) : List (ℕ × α) :=
  if m.any (fun e => e.1 == k) then
    m.map (fun e => if e.1 == k then (k, v) else e)
  else m ++ [(k, v)]

/-- `Map.prototype.delete`. -/
def jmapDelete {α : Type} (m : List (ℕ × α)) (k : ℕ) : List (ℕ × α) :=
  m.filter (fun e => !(e.1 == k))

/-- `Map.prototype.get`. -/
def jmapGet {α : Type} (m : List (ℕ × α)) (k : ℕ) : Option α :=
  (m.find? (fun e => e.1 == k)).map Prod.snd

/-- `Map.prototype.has`. -/
def jmapHas {α : Type} (m : List (ℕ × α)) (k : ℕ) : Bool :=
  m.any (fun e => e.1 == k)

/-! ### GestureEngine (gestures.js lines 14-269) -/

/-- One active contact: `{x, y, startX, startY}` (gestures.js line 118). -/
structure Pointer where
  x : ℚ
  y : ℚ
  startX : ℚ
  startY : ℚ
deriving DecidableEq, Repr

/-- `_dist(a, b)` (gestures.js lines 66-70), with `Math.sqrt` as `Rat.sqrt`. -/
def dist (a b : Pointer) : ℚ :=
  Rat.sqrt ((a.x - b.x) * (a.x - b.x) + (a.y - b.y) * (a.y - b.y))

/-- The x component of `_mid(a, b)` (gestures.js lines 72-74). -/
def midX (a b : Pointer) : ℚ := (a.x + b.x) / 2

/-- The y component of `_mid(a, b)` (gestures.js lines 72-74). -/
def midY (a b : Pointer) : ℚ := (a.y + b.y) / 2

/-- The callbacks a `GestureEngine` can invoke, as emitted events. -/
inductive GEvent where
  | pan (dx dy : ℚ) (dragging : Bool)
  | panEnd
  | pinch (scale anchorX anchorY panDx panDy : ℚ)
  | pinchEnd
  | tap (x y : ℚ)
  | doubleTap (x y : ℚ)
  | longPress (x y : ℚ)
deriving DecidableEq, Repr

/-- The mutable fields of `GestureEngine` (gestures.js lines 15-54).
`lpHandle` models `_longPressTimer !== null`; `lpLive` models that the
timeout is scheduled but has neither fired nor been cleared (in JS the
handle stays non-null after the timeout fires); `lpX`/`lpY` are the
coordinates the long-press closure captured; `momentumActive` models
`_momentumRafId !== null` and `momentumVelX/Y` the velocity captured by
`_startMomentum`. -/
structure EngineState where
  pointers : List (ℕ × Pointer)
  lastPanX : ℚ
  lastPanY : ℚ
  panVelX : ℚ
  panVelY : ℚ
  panTimestamp : ℚ
  momentumActive : Bool
  momentumVelX : ℚ
  momentumVelY : ℚ
  initPinchDist : ℚ
  initPinchMidX : ℚ
  initPinchMidY : ℚ
  initPinchScale : ℚ
  lastTapTime : ℚ
  lastTapX : ℚ
  lastTapY : ℚ
  lpHandle : Bool
  lpLive : Bool
  lpX : ℚ
  lpY : ℚ
  longPressFired : Bool
deriving DecidableEq, Repr

/-- Constructor state of `GestureEngine` (gestures.js lines 15-54). -/
def initEngine : EngineState where
  pointers := []
  lastPanX := 0
  lastPanY := 0
  panVelX := 0
  panVelY := 0
  panTimestamp := 0
  momentumActive := false
  momentumVelX := 0
  momentumVelY := 0
  initPinchDist := 0
  initPinchMidX := 0
  initPinchMidY := 0
  initPinchScale := 1
  lastTapTime := 0
  lastTapX := 0
  lastTapY := 0
  lpHandle := false
  lpLive := false
  lpX := 0
  lpY := 0
  longPressFired := false

/-- `_onDown(e)` (gestures.js lines 111-147).  `curScale` is the value
returned by the caller-supplied `getCurrentScale` callback. -/
def onDown (s : EngineState) (pid : ℕ) (x y t curScale : ℚ) :
    EngineState × List GEvent :=
  let s1 : EngineState :=
    { s with momentumActive := false, lpHandle := false, lpLive := false }
  let pt : Pointer := { x := x, y := y, startX := x, startY := y }
  let ps := jmapSet s1.pointers pid pt
  let s2 := { s1 with pointers := ps }
  if ps.length = 1 then
    ({ s2 with lastPanX := x, lastPanY := y, panVelX := 0, panVelY := 0,
               panTimestamp := t, longPressFired := false,
               lpHandle := true, lpLive := true, lpX := x, lpY := y }, [])
  else if ps.length = 2 then
    match ps with
    | [(_, a), (_, b)] =>
        ({ s2 with lpHandle := false, lpLive := false,
                   initPinchDist := dist a b,
                   initPinchMidX := midX a b,
                   initPinchMidY := midY a b,
                   initPinchScale := curScale }, [])
    | _ => (s2, [])
  else (s2, [])

/-- The scheduled long-press timeout firing (gestures.js lines 132-135). -/
def longPressFire (s : EngineState) : EngineState × List GEvent :=
  if s.lpLive then
    ({ s with lpLive := false, longPressFired := true },
     [GEvent.longPress s.lpX s.lpY])
  else (s, [])

/-- `_onMove(e)` (gestures.js lines 149-200). -/
def onMove (s : EngineState) (pid : ℕ) (x y t : ℚ) :
    EngineState × List GEvent :=
  match jmapGet s.pointers pid with
  | none => (s, [])
  | some pt0 =>
    let pt : Pointer := { pt0 with x := x, y := y }
    let ps := jmapSet s.pointers pid pt
    let s1 := { s with pointers := ps }
    if ps.length = 1 then
      let dx := x - s1.lastPanX
      let dy := y - s1.lastPanY
      let dt := if t - s1.panTimestamp = 0 then 16 else t - s1.panTimestamp
      let s2 :=
        if s1.lpHandle ∧ (8 < |x - pt.startX| ∨ 8 < |y - pt.startY|) then
          { s1 with lpHandle := false, lpLive := false }
        else s1
      let alpha : ℚ := 3/5
      let s3 :=
        { s2 with
          panVelX := alpha * (dx / dt * 16) + (1 - alpha) * s2.panVelX,
          panVelY := alpha * (dy / dt * 16) + (1 - alpha) * s2.panVelY,
          lastPanX := x, lastPanY := y, panTimestamp := t }
      (s3, [GEvent.pan dx dy true])
    else if ps.length = 2 then
      match ps with
      | [(_, a), (_, b)] =>
        let scaleRatio :=
          dist a b / (if s1.initPinchDist = 0 then 1 else s1.initPinchDist)
        (s1, [GEvent.pinch (s1.initPinchScale * scaleRatio)
                s1.initPinchMidX s1.initPinchMidY
                (midX a b - s1.initPinchMidX) (midY a b - s1.initPinchMidY)])
      | _ => (s1, [])
    else (s1, [])

/-- `_onUp(e)` (gestures.js lines 202-256). -/
def onUp (s : EngineState) (pid : ℕ) (x y t : ℚ) :
    EngineState × List GEvent :=
  match jmapGet s.pointers pid with
  | none => (s, [])
  | some pt =>
    let s1 := { s with lpHandle := false, lpLive := false }
    let ps := jmapDelete s1.pointers pid
    let s2 := { s1 with pointers := ps }
    if ps.length = 0 then
      let r :=
        if s2.longPressFired then (s2, ([] : List GEvent))
        else
          if 10 < |x - pt.startX| ∨ 10 < |y - pt.startY| then
            -- drag release; `Math.sqrt(vx**2+vy**2) > 1.5` as squares
            if (3/2 : ℚ)^2 < s2.panVelX^2 + s2.panVelY^2 then
              ({ s2 with momentumActive := true,
                         momentumVelX := s2.panVelX,
                         momentumVelY := s2.panVelY }, [])
            else (s2, [])
          else
            if t - s2.lastTapTime < 300 ∧ |x - s2.lastTapX| < 40 ∧
                |y - s2.lastTapY| < 40 then
              ({ s2 with lastTapTime := 0 }, [GEvent.doubleTap x y])
            else
              ({ s2 with lastTapTime := t, lastTapX := x, lastTapY := y },
               [GEvent.tap x y])
      (r.1, r.2 ++ [GEvent.panEnd])
    else if ps.length = 1 then
      match ps with
      | [(_, rp)] =>
        ({ s2 with lastPanX := rp.x, lastPanY := rp.y,
                   panVelX := 0, panVelY := 0 }, [GEvent.pinchEnd])
      | _ => (s2, [])
    else (s2, [])

/-- `_onCancel(e)` (gestures.js lines 258-263): unconditional, even for
pointer ids that are not in the active map. -/
def onCancel (s : EngineState) (pid : ℕ) : EngineState × List GEvent :=
  ({ s with pointers := jmapDelete s.pointers pid,
            lpHandle := false, lpLive := false, momentumActive := false },
   [GEvent.panEnd])

/-- Raw pointer events fed to the engine (plus the long-press timeout). -/
inductive PEvent where
  | down (pid : ℕ) (x y t curScale : ℚ)
  | move (pid : ℕ) (x y t : ℚ)
  | up (pid : ℕ) (x y t : ℚ)
  | cancel (pid : ℕ)
  | lpFire
deriving DecidableEq, Repr

/-- Dispatch one raw event to its handler. -/
def engineStep (s : EngineState) : PEvent → EngineState × List GEvent
  | .down pid x y t c => onDown s pid x y t c
  | .move pid x y t => onMove s pid x y t
  | .up pid x y t => onUp s pid x y t
  | .cancel pid => onCancel s pid
  | .lpFire => longPressFire s

/-- Run the engine over a list of raw events, collecting emitted events. -/
def engineRun (s : EngineState) : List PEvent → EngineState × List GEvent
  | [] => (s, [])
  | e :: rest =>
    let r := engineStep s e
    let r2 := engineRun r.1 rest
    (r2.1, r.2 ++ r2.2)

/-! ### Momentum loop (gestures.js lines 83-102) -/

/-- `FRICTION` (gestures.js line 85). -/
def FRICTION : ℚ := 9/10

/-- `MIN_VEL` (gestures.js line 86). -/
def MIN_VEL : ℚ := 3/10

/-- One `step()` of the momentum loop (gestures.js lines 91-99): multiply
both components by the friction factor, stop if both are now below the
threshold, otherwise keep the new velocity (and emit a pan). -/
def momentumTick (v : ℚ × ℚ) : Option (ℚ × ℚ) :=
  if |v.1 * FRICTION| < MIN_VEL ∧ |v.2 * FRICTION| < MIN_VEL then none
  else some (v.1 * FRICTION, v.2 * FRICTION)

/-- The momentum velocity after `n` animation frames, `none` once the
loop has stopped. -/
def momentumIter : ℕ → ℚ × ℚ → Option (ℚ × ℚ)
  | 0, v => some v
  | n + 1, v =>
    match momentumIter n v with
    | none => none
    | some w => momentumTick w

/-- The events one momentum tick emits (`onPan(vx, vy, false)` exactly
when the step does not stop; gestures.js line 97). -/
def momentumTickEvents (v : ℚ × ℚ) : List GEvent :=
  match momentumTick v with
  | none => []
  | some w => [GEvent.pan w.1 w.2 false]

/-! ### PdfRenderer (app.js): `renderPage` / `cancelPage`

Only the per-page task bookkeeping is modelled: `_rendered` is a
`Map<pageNum, taskId>` (the canvas is irrelevant to the claims).  The
second component of each operation is the list of `renderTask.cancel()`
calls it performs, in order. -/

/-- The `_rendered` map of `PdfRenderer`. -/
structure RendererState where
  tasks : List (ℕ × ℕ)
deriving DecidableEq, Repr

/-- `cancelPage(pageNum)`: cancel the recorded task, if any, then drop
the record. -/
def cancelPage (st : RendererState) (p : ℕ) : RendererState × List ℕ :=
  match jmapGet st.tasks p with
  | some tid => (⟨jmapDelete st.tasks p⟩, [tid])
  | none => (⟨jmapDelete st.tasks p⟩, [])

/-- The synchronous-scheduling view of `renderPage(pageNum, ...)`:
it first runs `this.cancelPage(pageNum)` and then records the freshly
created render task (`newTask`) for the page. -/
def renderPage (st : RendererState) (p : ℕ) (newTask : ℕ) :
    RendererState × List ℕ :=
  let r := cancelPage st p
  (⟨jmapSet r.1.tasks p newTask⟩, r.2)

/-! ### VirtualScroll (app.js)

State: `_rendered` and `_pending` are JS `Set`s of page numbers,
`_currentPage` the reported current page.  DOM slots and the renderer
handle are outside this state; a page's slot shows its canvas exactly
when the page is in `rendered` (the placeholder is removed in the
`renderPage` completion callback and restored by `_evictPage`).

A render scheduled by `_scheduleRender` completes asynchronously.  The
four possible outcomes of the awaited
`renderer.renderPage(pageNum, ...)` call, as the JS control flow
resolves them in `_renderSlot`, are:

* `success` — the `onDone` callback ran: the page is added to
  `_rendered` and removed from `_pending`;
* `cancelled` — the render task was cancelled mid-flight:
  `PdfRenderer.renderPage` catches the `RenderingCancelledException`
  and returns normally, so `_renderSlot`'s own catch never runs and no
  set is touched;
* `taskFailed` — the render task rejected with any other error:
  `PdfRenderer.renderPage` logs and swallows it, so again
  `_renderSlot`'s catch never runs and no set is touched;
* `getPageFailed` — `pdfDoc.getPage` (or other code outside
  `renderPage`'s try) threw: the rejection propagates and
  `_renderSlot`'s catch removes the page from `_pending`. -/

/-- Outcome of one awaited render, as resolved by the JS control flow. -/
inductive RenderOutcome where
  | success
  | cancelled
  | taskFailed
  | getPageFailed
deriving DecidableEq, Repr

/-- `Set.prototype.add`. -/
def setAdd (l : List ℕ) (x : ℕ) : List ℕ := if x ∈ l then l else l ++ [x]

/-- `Set.prototype.delete`. -/
def setDelete (l : List ℕ) (x : ℕ) : List ℕ := l.filter (fun y => y ≠ x)

/-- `Math.abs(p - q)` for page numbers. -/
def pageDist (p q : ℕ) : ℕ := ((p : ℤ) - (q : ℤ)).natAbs

/-- `_maxBuffered` (app.js: "max pages to keep in memory"). -/
def MAX_BUFFERED : ℕ := 5

/-- The sets and counters of a `VirtualScroll` instance. -/
structure VSState where
  rendered : List ℕ
  pending : List ℕ
  currentPage : ℕ
  totalPages : ℕ
deriving DecidableEq, Repr

/-- A freshly constructed `VirtualScroll` (app.js constructor). -/
def initVS (total : ℕ) : VSState :=
  { rendered := [], pending := [], currentPage := 1, totalPages := total }

/-- `_evictPage(pageNum, slot)` (app.js): only rendered pages are
evicted, and pages within a distance of 2 from the current page are
always kept. -/
def evictPage (s : VSState) (p : ℕ) : VSState :=
  if p ∉ s.rendered then s
  else if pageDist p s.currentPage ≤ 2 then s
  else { s with rendered := setDelete s.rendered p }

/-- The scan of `_evictFarPages` for the farthest rendered page: fold
with accumulator `(farthest, maxDist)` starting from `(-1, 0)`,
replacing on a strictly greater distance. -/
def farthestRendered (s : VSState) (nearPage : ℕ) : ℤ × ℕ :=
  s.rendered.foldl
    (fun acc p =>
      let d := pageDist p nearPage
      if acc.2 < d then ((p : ℤ), d) else acc)
    (-1, 0)

/-- `_evictFarPages(nearPage)` (app.js): no-op below the buffer limit;
otherwise evict the farthest rendered page provided its distance
exceeds 3 (and its slot exists). -/
def evictFarPages (s : VSState) (nearPage : ℕ) : VSState :=
  if s.rendered.length < MAX_BUFFERED then s
  else if 0 < (farthestRendered s nearPage).1 ∧
      3 < (farthestRendered s nearPage).2 then
    if (farthestRendered s nearPage).1.toNat ≤ s.totalPages then
      evictPage s (farthestRendered s nearPage).1.toNat
    else s
  else s

/-- `_scheduleRender(pageNum, slot)` followed by the synchronous prefix
of `_renderSlot` (the memory guard runs before the render is issued). -/
def scheduleRender (s : VSState) (p : ℕ) : VSState :=
  if p ∈ s.rendered ∨ p ∈ s.pending then s
  else evictFarPages { s with pending := setAdd s.pending p } p

/-- Resolution of an awaited render of page `p` with outcome `o`
(see the outcome table above). -/
def renderComplete (s : VSState) (p : ℕ) (o : RenderOutcome) : VSState :=
  match o with
  | .success =>
      { s with rendered := setAdd s.rendered p,
               pending := setDelete s.pending p }
  | .cancelled => s
  | .taskFailed => s
  | .getPageFailed => { s with pending := setDelete s.pending p }

/-- Events driving a `VirtualScroll`: an intersection-observer entry for
a slot becoming visible (`appear`, which calls `_scheduleRender`) or
invisible (`disappear`, which calls `_evictPage`), the current-page
update branch of `_onIntersect` (`setCurrent`), and the asynchronous
resolution of an in-flight render (`complete`, only meaningful for a
page whose render is pending). -/
inductive VSEvent where
  | appear (p : ℕ)
  | disappear (p : ℕ)
  | setCurrent (p : ℕ)
  | complete (p : ℕ) (o : RenderOutcome)
deriving DecidableEq, Repr

/-- One `VirtualScroll` step. -/
def vsStep (s : VSState) : VSEvent → VSState
  | .appear p => scheduleRender s p
  | .disappear p => evictPage s p
  | .setCurrent p => { s with currentPage := p }
  | .complete p o => if p ∈ s.pending then renderComplete s p o else s

/-- Run a `VirtualScroll` over a sequence of events. -/
def vsRun (s : VSState) : List VSEvent → VSState
  | [] => s
  | e :: es => vsRun (vsStep s e) es

/-! ### Reader transform state (app.js)

`_scale`, `_translateX`, `_translateY`, `currentPage` and the reading
mode; `_minScale = 1`, `_maxScale = 5`.  Viewport width/height are
passed as parameters. -/

/-- `clamp(val, min, max)` (app.js utilities). -/
def clamp (val lo hi : ℚ) : ℚ := min (max val lo) hi

/-- Reading mode. -/
inductive Mode where
  | vertical
  | horizontal
deriving DecidableEq, Repr

/-- The transform-related fields of `Reader`. -/
structure ReaderState where
  scale : ℚ
  tx : ℚ
  ty : ℚ
  currentPage : ℚ
  mode : Mode
deriving DecidableEq, Repr

/-- `_minScale`. -/
def minScale : ℚ := 1

/-- `_maxScale`. -/
def maxScale : ℚ := 5

/-- `_clampPan()` (app.js): pin translate to the origin at scale ≤ 1,
otherwise clamp both components to `±(scale-1)·extent/2`. -/
def clampPan (vw vh : ℚ) (s : ReaderState) : ReaderState :=
  if s.scale ≤ 1 then { s with tx := 0, ty := 0 }
  else
    { s with
      tx := clamp s.tx (-((s.scale - 1) * vw / 2)) ((s.scale - 1) * vw / 2),
      ty := clamp s.ty (-((s.scale - 1) * vh / 2)) ((s.scale - 1) * vh / 2) }

/-- The `onPan` callback of `_initGestures` (app.js): vertical mode pans
the transform only when zoomed in past 1.05 (otherwise it scrolls the
viewport natively, leaving the transform unchanged); horizontal mode
accumulates the rubber-band drag offset without clamping. -/
def readerOnPan (vw vh : ℚ) (s : ReaderState) (dx dy : ℚ) : ReaderState :=
  if s.mode = Mode.vertical then
    if 21/20 < s.scale then
      clampPan vw vh { s with tx := s.tx + dx, ty := s.ty + dy }
    else s
  else { s with tx := s.tx + dx }

/-- The `onPinch` callback of `_initGestures` (app.js). -/
def readerOnPinch (vw vh : ℚ) (s : ReaderState) (newScale panDx panDy : ℚ) :
    ReaderState :=
  clampPan vw vh
    { s with scale := clamp newScale minScale maxScale,
             tx := panDx, ty := panDy }

/-- `_zoomTo(targetScale, cx, cy, animate)` (app.js). -/
def zoomTo (vw vh : ℚ) (s : ReaderState) (targetScale cx cy : ℚ) :
    ReaderState :=
  if targetScale ≤ 1 then { s with scale := 1, tx := 0, ty := 0 }
  else
    clampPan vw vh
      { s with scale := targetScale,
               tx := -(cx - vw / 2) * (targetScale - 1) / targetScale,
               ty := if s.mode = Mode.vertical then
                       -(cy - vh / 2) * (targetScale - 1) / targetScale
                     else 0 }

/-- The `onDoubleTap` callback of `_initGestures` (app.js). -/
def readerOnDoubleTap (vw vh : ℚ) (s : ReaderState) (x y : ℚ) : ReaderState :=
  if 21/20 < s.scale then zoomTo vw vh s 1 x y else zoomTo vw vh s (5/2) x y

/-- The `onPinchEnd` callback of `_initGestures` (app.js). -/
def readerOnPinchEnd (vw vh : ℚ) (s : ReaderState) : ReaderState :=
  if s.scale < 21/20 then zoomTo vw vh s 1 0 0 else s

/-- `_jumpToHPage(page, animate)` (app.js): clamp the page into
`[1, totalPages]`, then set the horizontal paging offset. -/
def jumpToHPage (vw : ℚ) (total : ℕ) (s : ReaderState) (page : ℚ) :
    ReaderState :=
  let p := clamp page 1 (total : ℚ)
  { s with tx := -(p - 1) * vw }

/-- `_snapHorizontalPage()` (app.js). -/
def snapHorizontalPage (vw : ℚ) (total : ℕ) (s : ReaderState) : ReaderState :=
  let target := -(s.currentPage - 1) * vw
  let diff := s.tx - target
  let dest :=
    if diff < -(vw * (1/5)) ∧ s.currentPage < (total : ℚ) then
      s.currentPage + 1
    else if vw * (1/5) < diff ∧ 1 < s.currentPage then s.currentPage - 1
    else s.currentPage
  jumpToHPage vw total s dest

/-- The transform mutations the Reader performs, as dispatched by its
gesture callbacks and navigation entry points (`_jumpPage`/`_doScrub`
scroll natively in vertical mode and call `_jumpToHPage` in horizontal
mode; `onPanEnd` snaps the horizontal page when not zoomed). -/
inductive Mutation where
  | pan (dx dy : ℚ)
  | panEnd
  | pinch (newScale panDx panDy : ℚ)
  | pinchEnd
  | doubleTap (x y : ℚ)
  | jump (page : ℚ)
  | setCurrent (p : ℚ)
deriving DecidableEq, Repr

/-- Apply one mutation as the Reader's callbacks dispatch it. -/
def applyMut (vw vh : ℚ) (total : ℕ) (s : ReaderState) : Mutation → ReaderState
  | .pan dx dy => readerOnPan vw vh s dx dy
  | .panEnd =>
      if s.mode = Mode.horizontal ∧ s.scale ≤ 21/20 then
        snapHorizontalPage vw total s
      else s
  | .pinch ns dx dy => readerOnPinch vw vh s ns dx dy
  | .pinchEnd => readerOnPinchEnd vw vh s
  | .doubleTap x y => readerOnDoubleTap vw vh s x y
  | .jump page =>
      if s.mode = Mode.vertical then s else jumpToHPage vw total s page
  | .setCurrent p => { s with currentPage := p }

/-- The spec's ViewTransform invariant: scale within `[minScale,
maxScale]` and, at scale ≤ 1, translate pinned to the origin. -/
def InvT (s : ReaderState) : Prop :=
  minScale ≤ s.scale ∧ s.scale ≤ maxScale ∧
    (s.scale ≤ 1 → s.tx = 0 ∧ s.ty = 0)

/-! ### Concrete scenarios used by the theorems below -/

/-- A release classified as a tap: the emitted events contain an
`onTap` or an `onDoubleTap`. -/
def tapClassified (evs : List GEvent) : Prop :=
  ∃ a b, GEvent.tap a b ∈ evs ∨ GEvent.doubleTap a b ∈ evs

/-- Five pages rendered, current page 3, then page 6 becomes visible
and its render completes (a fast downward scroll on a ten-page
document). -/
def c1Trace : List VSEvent :=
  [.appear 1, .complete 1 .success, .appear 2, .complete 2 .success,
   .appear 3, .complete 3 .success, .appear 4, .complete 4 .success,
   .appear 5, .complete 5 .success, .setCurrent 3,
   .appear 6, .complete 6 .success]

/-- Three taps at the same spot, all within the first 300 ms of the
event-timestamp clock. -/
def c7Trace : List PEvent :=
  [.down 1 50 50 0 1, .up 1 50 50 10,
   .down 1 50 50 100 1, .up 1 50 50 110,
   .down 1 50 50 200 1, .up 1 50 50 210]

/-- Engine state: a tap at (100,100) was recorded at t = 10 and a
second contact is down at (110,105). -/
def S7 : EngineState :=
  (engineRun initEngine
    [.down 1 100 100 0 1, .up 1 100 100 10, .down 1 110 105 200 1]).1

/-- Engine state in a pinch: fingers at (0,0) and (100,0), baseline
distance 100, baseline midpoint (50,0), baseline scale 1. -/
def S8 : EngineState :=
  { initEngine with
      pointers := [(1, ⟨0, 0, 0, 0⟩), (2, ⟨100, 0, 100, 0⟩)]
      initPinchDist := 100
      initPinchMidX := 50
      initPinchMidY := 0
      initPinchScale := 1 }

/-- `S8` with the two map entries in the opposite insertion order. -/
def S8sw : EngineState :=
  { S8 with pointers := [(2, ⟨100, 0, 100, 0⟩), (1, ⟨0, 0, 0, 0⟩)] }

/-- Engine state with one active contact (id 1), a live long-press
timer and a running momentum animation. -/
def S9 : EngineState :=
  { initEngine with
      pointers := [(1, ⟨3, 4, 3, 4⟩)]
      momentumActive := true
      lpHandle := true
      lpLive := true }

/-- Reader state: horizontal mode, not zoomed, on page 1. -/
def hState : ReaderState :=
  { scale := 1, tx := 0, ty := 0, currentPage := 1, mode := Mode.horizontal }

/-- Reader state: vertical mode, not zoomed. -/
def vState : ReaderState :=
  { scale := 1, tx := 0, ty := 0, currentPage := 1, mode := Mode.vertical }

/-! ## Helper lemmas about the JS `Map` model -/

lemma jmapGet_eq_none {α : Type} {m : List (ℕ × α)} {k : ℕ}
    (h : jmapHas m k = false) : jmapGet m k = none := by
  simp only [jmapHas, List.any_eq_false] at h
  simp only [jmapGet]
  rw [List.find?_eq_none.mpr h]
  rfl

lemma jmapDelete_eq_self {α : Type} {m : List (ℕ × α)} {k : ℕ}
    (h : jmapHas m k = false) : jmapDelete m k = m := by
  simp only [jmapHas, List.any_eq_false] at h
  refine List.filter_eq_self.mpr fun e he => ?_
  simpa using h e he

lemma find?_set_true {α : Type} (m : List (ℕ × α)) (k : ℕ) (v : α)
    (h : m.any (fun e => e.1 == k) = true) :
    (m.map (fun e => if e.1 == k then (k, v) else e)).find?
      (fun e => e.1 == k) = some (k, v) := by
  induction m with
  | nil => simp at h
  | cons e es ih =>
    rw [List.map_cons]
    by_cases hek : (e.1 == k) = true
    · rw [if_pos hek]
      exact List.find?_cons_of_pos _ (by simp)
    · have hekf : (e.1 == k) = false := Bool.eq_false_iff.mpr hek
      rw [if_neg hek, List.find?_cons_of_neg (p := fun e : ℕ × α => e.1 == k) _ hek]
      exact ih (by simpa [hekf] using h)

lemma find?_set_false {α : Type} (m : List (ℕ × α)) (k : ℕ) (v : α)
    (h : m.any (fun e => e.1 == k) = false) :
    (m ++ [(k, v)]).find? (fun e => e.1 == k) = some (k, v) := by
  rw [List.find?_append, List.find?_eq_none.mpr (List.any_eq_false.mp h)]
  simp

lemma jmapGet_set_self {α : Type} (m : List (ℕ × α)) (k : ℕ) (v : α) :
    jmapGet (jmapSet m k v) k = some v := by
  unfold jmapGet jmapSet
  split
  case isTrue h => rw [find?_set_true m k v h]; rfl
  case isFalse h =>
    rw [find?_set_false m k v (Bool.eq_false_iff.mpr h)]
    rfl

lemma find?_set_map_ne {α : Type} (m : List (ℕ × α)) (k q : ℕ) (v : α)
    (hqk : q ≠ k) :
    (m.map (fun e => if e.1 == k then (k, v) else e)).find?
      (fun e => e.1 == q) = m.find? (fun e => e.1 == q) := by
  have hkq : ¬ (((k, v).1 == q) = true) := by simpa using Ne.symm hqk
  induction m with
  | nil => rfl
  | cons e es ih =>
    rw [List.map_cons]
    by_cases hek : (e.1 == k) = true
    · have he1 : e.1 = k := beq_iff_eq.mp hek
      have heq : ¬ ((e.1 == q) = true) := by
        rw [he1]; simpa using Ne.symm hqk
      rw [if_pos hek, List.find?_cons_of_neg (p := fun e : ℕ × α => e.1 == q) _ hkq,
        List.find?_cons_of_neg (p := fun e : ℕ × α => e.1 == q) _ heq]
      exact ih
    · rw [if_neg hek]
      by_cases heq : (e.1 == q) = true
      · rw [List.find?_cons_of_pos (p := fun e : ℕ × α => e.1 == q) _ heq,
          List.find?_cons_of_pos (p := fun e : ℕ × α => e.1 == q) _ heq]
      · rw [List.find?_cons_of_neg (p := fun e : ℕ × α => e.1 == q) _ heq,
          List.find?_cons_of_neg (p := fun e : ℕ × α => e.1 == q) _ heq]
        exact ih

lemma jmapGet_set_ne {α : Type} (m : List (ℕ × α)) (k q : ℕ) (v : α)
    (hqk : q ≠ k) : jmapGet (jmapSet m k v) q = jmapGet m q := by
  unfold jmapGet jmapSet
  split
  · rw [find?_set_map_ne m k q v hqk]
  · rw [List.find?_append]
    have h1 : List.find? (fun e => e.1 == q) [(k, v)] = none := by
      rw [List.find?_cons_of_neg (p := fun e : ℕ × α => e.1 == q) _
        (by simpa using Ne.symm hqk)]
      rfl
    rw [h1, Option.or_none]

lemma jmapGet_delete_ne {α : Type} (m : List (ℕ × α)) (k q : ℕ)
    (hqk : q ≠ k) : jmapGet (jmapDelete m k) q = jmapGet m q := by
  unfold jmapGet jmapDelete
  congr 1
  induction m with
  | nil => rfl
  | cons e es ih =>
    by_cases hek : (e.1 == k) = true
    · have he1 : e.1 = k := beq_iff_eq.mp hek
      have heq : ¬ ((e.1 == q) = true) := by
        rw [he1]; simpa using Ne.symm hqk
      rw [List.filter_cons_of_neg (by simp [hek]),
        List.find?_cons_of_neg (p := fun e : ℕ × α => e.1 == q) _ heq]
      exact ih
    · rw [List.filter_cons_of_pos (by simpa using hek)]
      by_cases heq : (e.1 == q) = true
      · rw [List.find?_cons_of_pos (p := fun e : ℕ × α => e.1 == q) _ heq,
          List.find?_cons_of_pos (p := fun e : ℕ × α => e.1 == q) _ heq]
      · rw [List.find?_cons_of_neg (p := fun e : ℕ × α => e.1 == q) _ heq,
          List.find?_cons_of_neg (p := fun e : ℕ × α => e.1 == q) _ heq]
        exact ih

lemma jmapHas_delete_self {α : Type} (m : List (ℕ × α)) (k : ℕ) :
    jmapHas (jmapDelete m k) k = false := by
  simp only [jmapHas, jmapDelete, List.any_eq_false]
  intro e he
  simp only [List.mem_filter, Bool.not_eq_eq_eq_not, Bool.not_true] at he
  simp [he.2]

lemma keys_nodup_delete {α : Type} (m : List (ℕ × α)) (k : ℕ)
    (h : (m.map Prod.fst).Nodup) :
    ((jmapDelete m k).map Prod.fst).Nodup :=
  h.sublist ((List.filter_sublist m).map Prod.fst)

lemma not_mem_keys_of_not_has {α : Type} {m : List (ℕ × α)} {k : ℕ}
    (h : jmapHas m k = false) : k ∉ m.map Prod.fst := by
  simp only [jmapHas, List.any_eq_false] at h
  intro hk
  obtain ⟨e, he, hek⟩ := List.mem_map.mp hk
  exact h e he (by simp [hek])

lemma keys_nodup_set_of_not_has {α : Type} (m : List (ℕ × α)) (k : ℕ)
    (v : α) (h : jmapHas m k = false) (hn : (m.map Prod.fst).Nodup) :
    ((jmapSet m k v).map Prod.fst).Nodup := by
  unfold jmapSet
  have h' : m.any (fun e => e.1 == k) = false := h
  rw [if_neg (Bool.eq_false_iff.mp h')]
  rw [List.map_append]
  simp only [List.map_cons, List.map_nil]
  rw [List.nodup_append]
  exact ⟨hn, List.nodup_singleton k,
    fun a ha hb => by
      simp only [List.mem_singleton] at hb
      exact not_mem_keys_of_not_has h (hb ▸ ha)⟩

/-! ## Theorems -/

/-- C1, counterexample: the rendered-page budget of 5 is exceeded.  On
a ten-page document, after pages 1-5 are rendered with current page 3,
page 6 becomes visible: `_evictFarPages` picks page 1 (distance 5 > 3)
as the only eviction candidate, but `_evictPage` refuses to evict it
because it is within ±2 of the current page, so the render of page 6
brings the rendered set to six pages — the claimed bound of 5 fails
exactly because retention wins over the budget. -/
theorem C1_budget_exceeded :
    (vsRun (initVS 10) c1Trace).rendered = [1, 2, 3, 4, 5, 6] ∧
    MAX_BUFFERED < (vsRun (initVS 10) c1Trace).rendered.length := by
  norm_num [c1Trace, vsRun, vsStep, initVS, scheduleRender, evictFarPages,
    evictPage, farthestRendered, renderComplete, setAdd, setDelete, pageDist,
    MAX_BUFFERED]

/-- C2: the claim states the spec's failure policy — after a failed or
cancelled render the page is in neither `_rendered` nor `_pending`, so
a later visibility event schedules a fresh render.  The code violates
it: `PdfRenderer.renderPage` swallows both the
`RenderingCancelledException` and any other render-task rejection, so
`_renderSlot`'s catch (the only place that would clear `_pending`)
never runs; the page stays in `_pending` forever and the subsequent
`appear` event is a no-op (its `_scheduleRender` guard sees the stale
pending entry).  The slot does stay in placeholder state and no retry
occurs, but re-triggering is impossible.  Only a failure thrown
outside `renderPage`'s try (modelled as `getPageFailed`) behaves as
the claim says.  This contradicts the code's own intent: `_renderSlot`
contains dead cleanup code `this._pending.delete(pageNum)` under a
"Render failed" log message. -/
theorem C2_failed_render_leaks_pending :
    ((vsRun (initVS 10) [.appear 4, .complete 4 .taskFailed]).pending = [4] ∧
     (vsRun (initVS 10) [.appear 4, .complete 4 .taskFailed]).rendered = []) ∧
    ((vsRun (initVS 10) [.appear 4, .complete 4 .cancelled]).pending = [4] ∧
     (vsRun (initVS 10) [.appear 4, .complete 4 .cancelled]).rendered = []) ∧
    vsStep (vsRun (initVS 10) [.appear 4, .complete 4 .taskFailed])
        (.appear 4) =
      vsRun (initVS 10) [.appear 4, .complete 4 .taskFailed] ∧
    (vsRun (initVS 10) [.appear 4, .complete 4 .getPageFailed]).pending
      = [] := by
  norm_num [vsRun, vsStep, initVS, scheduleRender, evictFarPages, evictPage,
    farthestRendered, renderComplete, setAdd, setDelete, pageDist,
    MAX_BUFFERED]

/-- C3, counterexample: a release displaced by (8,8) from its start has
total (Euclidean) displacement √128 > 10 px, yet `_onUp` classifies it
as a tap, because the code thresholds each axis separately
(`dx > 10 || dy > 10`) rather than the total displacement. -/
theorem C3_total_displacement_refuted :
    (engineRun initEngine [.down 1 0 0 950 1, .up 1 8 8 1000]).2
      = [GEvent.tap 8 8, GEvent.panEnd] ∧
    (10 : ℚ)^2 < (8 - 0 : ℚ)^2 + (8 - 0 : ℚ)^2 := by
  constructor
  · norm_num [engineRun, engineStep, onDown, onUp, jmapGet, jmapSet,
      jmapDelete, jmapHas, initEngine]
  · norm_num

/-- C4, counterexample: a horizontal page jump to page 2 (viewport
width 400, three pages) leaves the scale at 1 but the translate at
(-400, 0): the translate-pinning half of the invariant fails in
horizontal mode, where `translateX` stores the paging offset and
`_jumpToHPage` never calls `_clampPan`. -/
theorem C4_horizontal_jump_violates_pinning :
    (applyMut 400 600 3 hState (Mutation.jump 2)).scale ≤ 1 ∧
    (applyMut 400 600 3 hState (Mutation.jump 2)).tx = -400 ∧
    ¬ InvT (applyMut 400 600 3 hState (Mutation.jump 2)) := by
  have h : applyMut 400 600 3 hState (Mutation.jump 2) =
      { scale := 1, tx := -400, ty := 0, currentPage := 1,
        mode := Mode.horizontal } := by
    norm_num [applyMut, jumpToHPage, hState, clamp]
    decide
  rw [h]
  refine ⟨by norm_num, rfl, fun hInv => ?_⟩
  have := (hInv.2.2 (by norm_num)).1
  norm_num at this

/-- C7, counterexample: three taps at (50,50) at timestamps 10, 110 and
210 ms.  The second pairs with the first and emits `onDoubleTap`; the
code then "clears" the history only by zeroing `_lastTapTime` (the
position is kept), so the third tap sees `now - 0 = 210 < 300` and the
stale first-tap position and emits a second `onDoubleTap` — the claim
that the cleared history prevents the third tap from pairing fails
whenever the third timestamp is itself below 300 ms. -/
theorem C7_triple_tap_pairs_again :
    (engineRun initEngine c7Trace).2 =
      [GEvent.tap 50 50, GEvent.panEnd,
       GEvent.doubleTap 50 50, GEvent.panEnd,
       GEvent.doubleTap 50 50, GEvent.panEnd] := by
  norm_num [c7Trace, engineRun, engineStep, onDown, onUp, jmapGet, jmapSet,
    jmapDelete, jmapHas, initEngine]

/-- C5: issuing `renderPage(p, ...)` while a render task is recorded
for page `p` first cancels exactly that one task (the emitted cancel
list is `[t]`), and cancels nothing when no task is recorded; the new
task is then recorded for `p`, records of other pages are untouched,
and the one-record-per-page-index invariant (no duplicate keys in
`_rendered`) is preserved — so at most one render task is outstanding
per page index at any time. -/
theorem C5_cancel_once_before_replace (st : RendererState) (p newTask : ℕ) :
    (∀ t, jmapGet st.tasks p = some t → (renderPage st p newTask).2 = [t]) ∧
    (jmapGet st.tasks p = none → (renderPage st p newTask).2 = []) ∧
    jmapGet (renderPage st p newTask).1.tasks p = some newTask ∧
    (∀ q, q ≠ p →
      jmapGet (renderPage st p newTask).1.tasks q = jmapGet st.tasks q) ∧
    ((st.tasks.map Prod.fst).Nodup →
      ((renderPage st p newTask).1.tasks.map Prod.fst).Nodup) := by
  unfold renderPage cancelPage
  cases h : jmapGet st.tasks p with
  | some t0 =>
    refine ⟨fun t ht => ?_, fun ht => ?_, ?_, fun q hq => ?_, fun hn => ?_⟩
    · simp only [Option.some.injEq] at ht
      subst ht
      rfl
    · exact absurd ht (by simp)
    · exact jmapGet_set_self _ p newTask
    · rw [jmapGet_set_ne _ p q newTask hq, jmapGet_delete_ne _ p q hq]
    · exact keys_nodup_set_of_not_has _ p newTask
        (jmapHas_delete_self st.tasks p) (keys_nodup_delete st.tasks p hn)
  | none =>
    refine ⟨fun t ht => ?_, fun ht => ?_, ?_, fun q hq => ?_, fun hn => ?_⟩
    · exact absurd ht (by simp)
    · rfl
    · exact jmapGet_set_self _ p newTask
    · rw [jmapGet_set_ne _ p q newTask hq, jmapGet_delete_ne _ p q hq]
    · exact keys_nodup_set_of_not_has _ p newTask
        (jmapHas_delete_self st.tasks p) (keys_nodup_delete st.tasks p hn)

/-- C5, witness: a renderer with task 70 recorded for page 4 receives a
new render of page 4 as task 71: exactly one cancel, of task 70, is
emitted, and the record is replaced. -/
theorem C5_witness :
    (renderPage ⟨[(4, 70)]⟩ 4 71).2 = [70] ∧
    jmapGet (renderPage ⟨[(4, 70)]⟩ 4 71).1.tasks 4 = some 71 :=
  ⟨(C5_cancel_once_before_replace ⟨[(4, 70)]⟩ 4 71).1 70 rfl,
   (C5_cancel_once_before_replace ⟨[(4, 70)]⟩ 4 71).2.2.1⟩

/-- C9: a `pointercancel` for a pointer id absent from the active map
is not a no-op — it still clears the long-press timer, stops any
running momentum animation and emits `onPanEnd()` — whereas
`pointermove` and `pointerup` with unknown ids leave the state
untouched and emit nothing. -/
theorem C9_unknown_pointer_handling (s : EngineState) (pid : ℕ)
    (x y t : ℚ) (h : jmapHas s.pointers pid = false) :
    onMove s pid x y t = (s, []) ∧
    onUp s pid x y t = (s, []) ∧
    (onCancel s pid).2 = [GEvent.panEnd] ∧
    (onCancel s pid).1 =
      { s with lpHandle := false, lpLive := false,
               momentumActive := false } := by
  have hg : jmapGet s.pointers pid = none := jmapGet_eq_none h
  refine ⟨?_, ?_, rfl, ?_⟩
  · unfold onMove
    rw [hg]
  · unfold onUp
    rw [hg]
  · unfold onCancel
    rw [jmapDelete_eq_self h]

/-- C9, witness: on a state with contact id 1 active, a live long-press
timer and running momentum, events for the unknown id 2 behave as
`C9_unknown_pointer_handling` states. -/
theorem C9_witness :
    onMove S9 2 7 8 9 = (S9, []) ∧
    onUp S9 2 7 8 9 = (S9, []) ∧
    (onCancel S9 2).1.momentumActive = false ∧
    (onCancel S9 2).1.lpLive = false ∧
    (onCancel S9 2).2 = [GEvent.panEnd] := by
  have h := C9_unknown_pointer_handling S9 2 7 8 9 (by decide)
  exact ⟨h.1, h.2.1, by rw [h.2.2.2], by rw [h.2.2.2], h.2.2.1⟩

/-! ## Momentum lemmas (for C6) -/

lemma momentumIter_none_succ (v : ℚ × ℚ) (n : ℕ)
    (h : momentumIter n v = none) : momentumIter (n + 1) v = none := by
  unfold momentumIter
  rw [h]

lemma momentumTick_none_iff (w : ℚ × ℚ) :
    momentumTick w = none ↔
      |w.1 * FRICTION| < MIN_VEL ∧ |w.2 * FRICTION| < MIN_VEL := by
  unfold momentumTick
  split
  case isTrue hs => simpa using hs
  case isFalse hs => simpa using hs

lemma momentumTick_some (w w' : ℚ × ℚ) (h : momentumTick w = some w') :
    w' = (w.1 * FRICTION, w.2 * FRICTION) ∧
      momentumTickEvents w = [GEvent.pan w'.1 w'.2 false] := by
  have hw' : w' = (w.1 * FRICTION, w.2 * FRICTION) := by
    unfold momentumTick at h
    split at h
    · exact absurd h (by simp)
    · simp only [Option.some.injEq] at h
      exact h.symm
  refine ⟨hw', ?_⟩
  unfold momentumTickEvents
  rw [h]

lemma momentumIter_decay (vx vy : ℚ) (n : ℕ) (w : ℚ × ℚ)
    (h : momentumIter n (vx, vy) = some w) :
    w = (FRICTION ^ n * vx, FRICTION ^ n * vy) := by
  induction n generalizing w with
  | zero =>
    simp only [momentumIter, Option.some.injEq] at h
    simp [← h]
  | succ n ih =>
    unfold momentumIter at h
    cases hm : momentumIter n (vx, vy) with
    | none => rw [hm] at h; exact absurd h (by simp)
    | some u =>
      rw [hm] at h
      have h' : momentumTick u = some w := h
      obtain ⟨hw, -⟩ := momentumTick_some u w h'
      have hu := ih u hm
      rw [hw, hu]
      simp only [Prod.mk.injEq]
      constructor <;> ring

lemma momentum_bound (vx vy : ℚ) :
    ∃ N, ∀ n, N ≤ n → momentumIter n (vx, vy) = none := by
  have hden : (0 : ℚ) < |vx| + |vy| + 1 := by positivity
  obtain ⟨M, hM⟩ := exists_pow_lt_of_lt_one
    (x := MIN_VEL / (|vx| + |vy| + 1)) (y := FRICTION)
    (div_pos (by norm_num [MIN_VEL]) hden) (by norm_num [FRICTION])
  have key : ∀ m, M ≤ m →
      |vx * FRICTION ^ m| < MIN_VEL ∧ |vy * FRICTION ^ m| < MIN_VEL := by
    intro m hm
    have hpow : FRICTION ^ m ≤ FRICTION ^ M :=
      pow_le_pow_of_le_one (by norm_num [FRICTION]) (by norm_num [FRICTION]) hm
    have hlt : FRICTION ^ m < MIN_VEL / (|vx| + |vy| + 1) :=
      lt_of_le_of_lt hpow hM
    have hmul : FRICTION ^ m * (|vx| + |vy| + 1) < MIN_VEL :=
      (lt_div_iff₀ hden).mp hlt
    have hpow0 : (0 : ℚ) ≤ FRICTION ^ m :=
      pow_nonneg (by norm_num [FRICTION]) m
    constructor
    · rw [abs_mul, abs_pow,
        abs_of_nonneg (by norm_num [FRICTION] : (0:ℚ) ≤ FRICTION)]
      calc |vx| * FRICTION ^ m ≤ (|vx| + |vy| + 1) * FRICTION ^ m := by
             have hb : |vx| ≤ |vx| + |vy| + 1 := by
               linarith [abs_nonneg vy]
             exact mul_le_mul_of_nonneg_right hb hpow0
        _ = FRICTION ^ m * (|vx| + |vy| + 1) := by ring
        _ < MIN_VEL := hmul
    · rw [abs_mul, abs_pow,
        abs_of_nonneg (by norm_num [FRICTION] : (0:ℚ) ≤ FRICTION)]
      calc |vy| * FRICTION ^ m ≤ (|vx| + |vy| + 1) * FRICTION ^ m := by
             have hb : |vy| ≤ |vx| + |vy| + 1 := by
               linarith [abs_nonneg vx]
             exact mul_le_mul_of_nonneg_right hb hpow0
        _ = FRICTION ^ m * (|vx| + |vy| + 1) := by ring
        _ < MIN_VEL := hmul
  refine ⟨M + 1, fun n hn => ?_⟩
  obtain ⟨m, rfl⟩ : ∃ m, n = m + 1 := ⟨n - 1, by omega⟩
  have hm : M ≤ m := by omega
  cases hit : momentumIter m (vx, vy) with
  | none => exact momentumIter_none_succ _ _ hit
  | some w =>
    have hw := momentumIter_decay vx vy m w hit
    unfold momentumIter
    rw [hit]
    rw [momentumTick_none_iff]
    obtain ⟨h1, h2⟩ := key (m + 1) (by omega)
    constructor
    · rw [hw]
      simpa [pow_succ, mul_comm, mul_assoc, mul_left_comm] using h1
    · rw [hw]
      simpa [pow_succ, mul_comm, mul_assoc, mul_left_comm] using h2

/-- C6: once started, each running momentum tick multiplies both
velocity components by the friction factor 0.90 (so after `n` ticks
the velocity is `0.9 ^ n` times the start velocity — geometric decay,
in particular from (10,0)) and emits `onPan(vx, vy, false)` with the
new velocity; a tick stops, emitting nothing, exactly when both new
components are below 0.3 in magnitude; and for every start velocity
there is a bound `N` past which the loop has terminated. -/
theorem C6_momentum_decay_and_termination (vx vy : ℚ) :
    (∀ n w, momentumIter n (vx, vy) = some w →
        w = (FRICTION ^ n * vx, FRICTION ^ n * vy) ∧
        (momentumTick w = none ↔
          |w.1 * FRICTION| < MIN_VEL ∧ |w.2 * FRICTION| < MIN_VEL) ∧
        (∀ w', momentumTick w = some w' →
          w' = (w.1 * FRICTION, w.2 * FRICTION) ∧
          momentumTickEvents w = [GEvent.pan w'.1 w'.2 false])) ∧
    ∃ N, ∀ n, N ≤ n → momentumIter n (vx, vy) = none :=
  ⟨fun n w h => ⟨momentumIter_decay vx vy n w h, momentumTick_none_iff w,
    fun w' h' => momentumTick_some w w' h'⟩,
   momentum_bound vx vy⟩

/-- C6, witness: the sequence started at velocity (10, 0) has velocity
`(0.9 ^ 1 · 10, 0.9 ^ 1 · 0) = (9, 0)` after its first tick. -/
theorem C6_witness :
    momentumIter 1 (10, 0) = some (9, 0) ∧
    ((9 : ℚ), (0 : ℚ)) = (FRICTION ^ 1 * 10, FRICTION ^ 1 * 0) := by
  have h1 : momentumIter 1 ((10 : ℚ), (0 : ℚ)) = some (9, 0) := by
    norm_num [momentumIter, momentumTick, FRICTION, MIN_VEL]
  exact ⟨h1, (C6_momentum_decay_and_termination 10 0).1 1 (9, 0) h1 |>.1⟩

/-! ## VirtualScroll lemmas (for C1) -/

lemma mem_setAdd_of_mem {l : List ℕ} {p : ℕ} (x : ℕ) (h : p ∈ l) :
    p ∈ setAdd l x := by
  unfold setAdd
  split
  · exact h
  · exact List.mem_append_left _ h

lemma setAdd_length_le (l : List ℕ) (x : ℕ) :
    (setAdd l x).length ≤ l.length + 1 := by
  unfold setAdd
  split
  · omega
  · simp

lemma mem_setDelete_of_ne {l : List ℕ} {p x : ℕ} (h : p ∈ l)
    (hne : p ≠ x) : p ∈ setDelete l x :=
  List.mem_filter.mpr ⟨h, by simp [hne]⟩

lemma setDelete_length_le (l : List ℕ) (x : ℕ) :
    (setDelete l x).length ≤ l.length :=
  List.length_filter_le _ _

lemma evictPage_retains {s : VSState} {p : ℕ} (x : ℕ)
    (hp : p ∈ s.rendered) (hnear : pageDist p s.currentPage ≤ 2) :
    p ∈ (evictPage s x).rendered := by
  unfold evictPage
  split
  · exact hp
  · split
    · exact hp
    · next hmem hfar =>
        exact mem_setDelete_of_ne hp (fun hpx => hfar (hpx ▸ hnear))

lemma evictPage_length_le (s : VSState) (x : ℕ) :
    (evictPage s x).rendered.length ≤ s.rendered.length := by
  unfold evictPage
  split
  · exact le_refl _
  · split
    · exact le_refl _
    · exact setDelete_length_le _ _

lemma evictFarPages_retains {s : VSState} {p : ℕ} (np : ℕ)
    (hp : p ∈ s.rendered) (hnear : pageDist p s.currentPage ≤ 2) :
    p ∈ (evictFarPages s np).rendered := by
  unfold evictFarPages
  split
  · exact hp
  · split
    · split
      · exact evictPage_retains _ hp hnear
      · exact hp
    · exact hp

lemma evictFarPages_length_le (s : VSState) (np : ℕ) :
    (evictFarPages s np).rendered.length ≤ s.rendered.length := by
  unfold evictFarPages
  split
  · exact le_refl _
  · split
    · split
      · exact evictPage_length_le _ _
      · exact le_refl _
    · exact le_refl _

lemma scheduleRender_below_budget {s : VSState} (q : ℕ)
    (h : s.rendered.length < MAX_BUFFERED) :
    (scheduleRender s q).rendered = s.rendered := by
  unfold scheduleRender
  split
  · rfl
  · unfold evictFarPages
    rw [if_pos h]

/-- C1 (amended): the rendered set is not bounded by the budget of 5
(see `C1_budget_exceeded`); what the code guarantees for every
visibility/scheduling/completion event is: (a) a rendered page within
index-distance 2 of the reported current page is never evicted by the
event, (b) an event grows the rendered set by at most one page, and
(c) while the rendered count is below the budget, scheduling a render
evicts nothing. -/
theorem C1_retention_and_growth (s : VSState) (e : VSEvent) (q p : ℕ)
    (hp : p ∈ s.rendered) (hnear : pageDist p s.currentPage ≤ 2) :
    p ∈ (vsStep s e).rendered ∧
    (vsStep s e).rendered.length ≤ s.rendered.length + 1 ∧
    (s.rendered.length < MAX_BUFFERED →
      (vsStep s (VSEvent.appear q)).rendered = s.rendered) := by
  refine ⟨?_, ?_, fun hbud => scheduleRender_below_budget q hbud⟩
  · cases e with
    | appear r =>
      show p ∈ (scheduleRender s r).rendered
      unfold scheduleRender
      split
      · exact hp
      · exact evictFarPages_retains _ hp hnear
    | disappear r => exact evictPage_retains _ hp hnear
    | setCurrent r => exact hp
    | complete r o =>
      show p ∈ (if r ∈ s.pending then renderComplete s r o else s).rendered
      split
      · cases o with
        | success => exact mem_setAdd_of_mem _ hp
        | cancelled => exact hp
        | taskFailed => exact hp
        | getPageFailed => exact hp
      · exact hp
  · cases e with
    | appear r =>
      show (scheduleRender s r).rendered.length ≤ s.rendered.length + 1
      unfold scheduleRender
      split
      · exact Nat.le_succ _
      · exact le_trans (evictFarPages_length_le _ _) (Nat.le_succ _)
    | disappear r => exact le_trans (evictPage_length_le _ _) (Nat.le_succ _)
    | setCurrent r => exact Nat.le_succ _
    | complete r o =>
      show (if r ∈ s.pending then renderComplete s r o else s).rendered.length
        ≤ s.rendered.length + 1
      split
      · cases o with
        | success => exact setAdd_length_le _ _
        | cancelled => exact Nat.le_succ _
        | taskFailed => exact Nat.le_succ _
        | getPageFailed => exact Nat.le_succ _
      · exact Nat.le_succ _

/-- C1, witness: with pages 1-6 rendered and current page 3, page 3
goes out of view; it is retained (distance 0 ≤ 2) and the event does
not grow the rendered set past one more page. -/
theorem C1_witness :
    3 ∈ (vsStep (vsRun (initVS 10) c1Trace) (VSEvent.disappear 3)).rendered ∧
    (vsStep (vsRun (initVS 10) c1Trace)
        (VSEvent.disappear 3)).rendered.length ≤
      (vsRun (initVS 10) c1Trace).rendered.length + 1 :=
  ⟨(C1_retention_and_growth (vsRun (initVS 10) c1Trace)
      (VSEvent.disappear 3) 7 3 (by decide) (by decide)).1,
   (C1_retention_and_growth (vsRun (initVS 10) c1Trace)
      (VSEvent.disappear 3) 7 3 (by decide) (by decide)).2.1⟩

/-! ## Reader transform lemmas (for C4, C10) -/

lemma clamp_mem (v lo hi : ℚ) (h : lo ≤ hi) :
    lo ≤ clamp v lo hi ∧ clamp v lo hi ≤ hi := by
  unfold clamp
  exact ⟨le_min (le_max_right _ _) h, min_le_right _ _⟩

lemma clampPan_scale (vw vh : ℚ) (s : ReaderState) :
    (clampPan vw vh s).scale = s.scale := by
  unfold clampPan
  split <;> rfl

lemma snapHorizontalPage_scale (vw : ℚ) (total : ℕ) (s : ReaderState) :
    (snapHorizontalPage vw total s).scale = s.scale := rfl

lemma clampPan_invT (vw vh : ℚ) (s : ReaderState)
    (h1 : minScale ≤ s.scale) (h5 : s.scale ≤ maxScale) :
    InvT (clampPan vw vh s) := by
  unfold clampPan InvT
  split
  case isTrue hle => exact ⟨h1, h5, fun _ => ⟨rfl, rfl⟩⟩
  case isFalse hgt => exact ⟨h1, h5, fun hc => absurd hc hgt⟩

lemma zoomTo_invT (vw vh : ℚ) (s : ReaderState) (ts cx cy : ℚ)
    (hts : ts ≤ 1 ∨ (minScale ≤ ts ∧ ts ≤ maxScale)) :
    InvT (zoomTo vw vh s ts cx cy) := by
  unfold zoomTo
  split
  case isTrue h =>
    exact ⟨by norm_num [minScale], by norm_num [maxScale],
      fun _ => ⟨rfl, rfl⟩⟩
  case isFalse h =>
    have hb : minScale ≤ ts ∧ ts ≤ maxScale := by
      rcases hts with h' | h'
      · exact absurd h' h
      · exact h'
    exact clampPan_invT vw vh _ hb.1 hb.2

/-- C4 (amended): the scale half of the invariant holds after every
mutation in both modes — `1 = minScale ≤ scale ≤ maxScale = 5` is
preserved — and in vertical mode the full ViewTransform invariant
(including translate pinned to `(0,0)` at scale ≤ 1) is preserved by
every mutation.  In horizontal mode the translate-pinning half fails
(see `C4_horizontal_jump_violates_pinning`): `translateX` carries the
paging offset there. -/
theorem C4_transform_invariant (vw vh : ℚ) (total : ℕ) (s : ReaderState)
    (m : Mutation) (h1 : minScale ≤ s.scale) (h5 : s.scale ≤ maxScale) :
    (minScale ≤ (applyMut vw vh total s m).scale ∧
      (applyMut vw vh total s m).scale ≤ maxScale) ∧
    (s.mode = Mode.vertical → InvT s →
      InvT (applyMut vw vh total s m)) := by
  cases m with
  | pan dx dy =>
    simp only [applyMut, readerOnPan]
    by_cases hm : s.mode = Mode.vertical
    · rw [if_pos hm]
      split
      next hz =>
        refine ⟨⟨?_, ?_⟩, fun _ _ => clampPan_invT vw vh _ h1 h5⟩
        · rw [clampPan_scale]; exact h1
        · rw [clampPan_scale]; exact h5
      next hz => exact ⟨⟨h1, h5⟩, fun _ hInv => hInv⟩
    · rw [if_neg hm]
      exact ⟨⟨h1, h5⟩, fun hv _ => absurd hv hm⟩
  | panEnd =>
    simp only [applyMut]
    split
    case isTrue h =>
      refine ⟨⟨?_, ?_⟩, fun hv _ => ?_⟩
      · rw [snapHorizontalPage_scale]; exact h1
      · rw [snapHorizontalPage_scale]; exact h5
      · rw [hv] at h
        exact absurd h.1 (by decide)
    case isFalse h => exact ⟨⟨h1, h5⟩, fun _ hInv => hInv⟩
  | pinch ns dx dy =>
    simp only [applyMut, readerOnPinch]
    have hc := clamp_mem ns minScale maxScale
      (by norm_num [minScale, maxScale])
    refine ⟨⟨?_, ?_⟩, fun _ _ => clampPan_invT vw vh _ hc.1 hc.2⟩
    · rw [clampPan_scale]; exact hc.1
    · rw [clampPan_scale]; exact hc.2
  | pinchEnd =>
    simp only [applyMut, readerOnPinchEnd]
    split
    case isTrue h =>
      have hz := zoomTo_invT vw vh s 1 0 0 (Or.inl (le_refl 1))
      exact ⟨⟨hz.1, hz.2.1⟩, fun _ _ => hz⟩
    case isFalse h => exact ⟨⟨h1, h5⟩, fun _ hInv => hInv⟩
  | doubleTap x y =>
    simp only [applyMut, readerOnDoubleTap]
    split
    case isTrue h =>
      have hz := zoomTo_invT vw vh s 1 x y (Or.inl (le_refl 1))
      exact ⟨⟨hz.1, hz.2.1⟩, fun _ _ => hz⟩
    case isFalse h =>
      have hz := zoomTo_invT vw vh s (5/2) x y
        (Or.inr (by norm_num [minScale, maxScale]))
      exact ⟨⟨hz.1, hz.2.1⟩, fun _ _ => hz⟩
  | jump page =>
    simp only [applyMut]
    split
    case isTrue h => exact ⟨⟨h1, h5⟩, fun _ hInv => hInv⟩
    case isFalse h => exact ⟨⟨h1, h5⟩, fun hv _ => absurd hv h⟩
  | setCurrent p =>
    simp only [applyMut]
    exact ⟨⟨h1, h5⟩, fun _ hInv => hInv⟩

/-- C4, witness: a pinch reporting scale 7 on a fresh vertical-mode
state is clamped into the invariant. -/
theorem C4_witness :
    minScale ≤ (applyMut 400 600 3 vState (Mutation.pinch 7 30 40)).scale ∧
    (applyMut 400 600 3 vState (Mutation.pinch 7 30 40)).scale ≤ maxScale ∧
    InvT (applyMut 400 600 3 vState (Mutation.pinch 7 30 40)) := by
  have h := C4_transform_invariant 400 600 3 vState
    (Mutation.pinch 7 30 40)
    (by norm_num [vState, minScale]) (by norm_num [vState, maxScale])
  have hInv : InvT vState := by
    refine ⟨?_, ?_, fun _ => ⟨rfl, rfl⟩⟩ <;>
      norm_num [vState, minScale, maxScale]
  exact ⟨h.1.1, h.1.2, h.2 rfl hInv⟩

/-- C10: `_jumpToHPage` clamps its page argument into
`[1, totalPages]` before computing the offset, so for every input page
the resulting horizontal translate is
`-(clamp(page, 1, totalPages) - 1) · viewportWidth`; the scale is
untouched; a page beyond the end lands on the last page's offset and a
page below 1 lands on offset 0. -/
theorem C10_jump_clamps_page (vw : ℚ) (total : ℕ) (s : ReaderState)
    (page : ℚ) :
    (jumpToHPage vw total s page).tx =
      -(clamp page 1 (total : ℚ) - 1) * vw ∧
    (jumpToHPage vw total s page).scale = s.scale ∧
    (1 ≤ total → (total : ℚ) < page →
      (jumpToHPage vw total s page).tx = -((total : ℚ) - 1) * vw) ∧
    (1 ≤ total → page < 1 → (jumpToHPage vw total s page).tx = 0) := by
  refine ⟨rfl, rfl, fun ht hp => ?_, fun ht hp => ?_⟩
  · show -(clamp page 1 (total : ℚ) - 1) * vw = -((total : ℚ) - 1) * vw
    have hc : clamp page 1 (total : ℚ) = (total : ℚ) := by
      unfold clamp
      have h1 : (1 : ℚ) ≤ (total : ℚ) := by exact_mod_cast ht
      rw [max_eq_left (le_trans h1 (le_of_lt hp))]
      exact min_eq_right (le_of_lt hp)
    rw [hc]
  · show -(clamp page 1 (total : ℚ) - 1) * vw = 0
    have hc : clamp page 1 (total : ℚ) = 1 := by
      unfold clamp
      rw [max_eq_right (le_of_lt hp)]
      exact min_eq_left (by exact_mod_cast ht)
    rw [hc]
    ring

/-- C10, witness: jumping to page 99 of a five-page document at
viewport width 400 clamps to page 5 and lands at translate −1600. -/
theorem C10_witness :
    (jumpToHPage 400 5 hState 99).tx =
      -(clamp 99 1 ((5 : ℕ) : ℚ) - 1) * 400 ∧
    (jumpToHPage 400 5 hState 99).tx = -1600 := by
  have h := C10_jump_clamps_page 400 5 hState 99
  refine ⟨h.1, ?_⟩
  rw [h.2.2.1 (by norm_num) (by norm_num)]
  norm_num

/-! ## GestureEngine release/pinch lemmas (for C3, C7, C8) -/

lemma dist_comm (a b : Pointer) : dist a b = dist b a := by
  unfold dist
  congr 1
  ring

lemma midX_comm (a b : Pointer) : midX a b = midX b a := by
  unfold midX
  ring

lemma midY_comm (a b : Pointer) : midY a b = midY b a := by
  unfold midY
  ring

/-- C3 (amended): on the last finger lifting with no long-press fired,
the release is classified as a tap (an `onTap` or `onDoubleTap` is
emitted) exactly when each axis displacement from the start point is
at most 10 px — the threshold is per-axis (`dx > 10 || dy > 10`), not
on the total displacement (see `C3_total_displacement_refuted`); in
particular (5,5) is a tap and (50,0) a pan-release.  `onPanEnd` is
always emitted. -/
theorem C3_per_axis_tap_classification (s : EngineState) (pid : ℕ)
    (pt : Pointer) (x y t : ℚ)
    (hp : s.pointers = [(pid, pt)]) (hf : s.longPressFired = false) :
    (tapClassified (onUp s pid x y t).2 ↔
      |x - pt.startX| ≤ 10 ∧ |y - pt.startY| ≤ 10) ∧
    GEvent.panEnd ∈ (onUp s pid x y t).2 := by
  by_cases hmoved : 10 < |x - pt.startX| ∨ 10 < |y - pt.startY|
  · have he : (onUp s pid x y t).2 = [GEvent.panEnd] := by
      unfold onUp
      rw [hp]
      by_cases hv : (9/4 : ℚ) < s.panVelX^2 + s.panVelY^2 <;>
        norm_num [jmapGet, jmapDelete, hf, hmoved, hv]
    rw [he]
    refine ⟨iff_of_false ?_ ?_, by simp⟩
    · rintro ⟨a, b, h | h⟩ <;> simp at h
    · intro hr
      rcases hmoved with h | h
      · exact absurd hr.1 (not_le.mpr h)
      · exact absurd hr.2 (not_le.mpr h)
  · have hr : |x - pt.startX| ≤ 10 ∧ |y - pt.startY| ≤ 10 := by
      push_neg at hmoved
      exact hmoved
    by_cases hpair : t - s.lastTapTime < 300 ∧ |x - s.lastTapX| < 40 ∧
        |y - s.lastTapY| < 40
    · have he : (onUp s pid x y t).2 =
          [GEvent.doubleTap x y, GEvent.panEnd] := by
        unfold onUp
        rw [hp]
        norm_num [jmapGet, jmapDelete, hf, hmoved, hpair]
      rw [he]
      exact ⟨iff_of_true ⟨x, y, Or.inr (by simp)⟩ hr, by simp⟩
    · have he : (onUp s pid x y t).2 = [GEvent.tap x y, GEvent.panEnd] := by
        unfold onUp
        rw [hp]
        norm_num [jmapGet, jmapDelete, hf, hmoved, hpair]
      rw [he]
      exact ⟨iff_of_true ⟨x, y, Or.inl (by simp)⟩ hr, by simp⟩

/-- C3, witness: after a pointer-down at (0,0), a release at (5,5)
(t = 1000, so the empty tap history cannot spuriously pair) is
classified as a tap. -/
theorem C3_witness :
    ((onDown initEngine 1 0 0 0 1).1.pointers
      = [(1, { x := 0, y := 0, startX := 0, startY := 0 })]) ∧
    tapClassified (onUp (onDown initEngine 1 0 0 0 1).1 1 5 5 1000).2 := by
  have hp : (onDown initEngine 1 0 0 0 1).1.pointers
      = [(1, { x := 0, y := 0, startX := 0, startY := 0 })] := by
    norm_num [onDown, initEngine, jmapSet]
  have hf : (onDown initEngine 1 0 0 0 1).1.longPressFired = false := by
    norm_num [onDown, initEngine, jmapSet]
  refine ⟨hp, ?_⟩
  refine ((C3_per_axis_tap_classification (onDown initEngine 1 0 0 0 1).1
    1 { x := 0, y := 0, startX := 0, startY := 0 } 5 5 1000 hp hf).1).mpr ?_
  norm_num

/-- C7 (amended): on a tap-classified release, if the recorded tap is
within 300 ms and within 40 px on both axes, exactly one `onDoubleTap`
is emitted (no `onTap`) and the recorded tap time is reset to 0 while
the recorded tap position is retained; otherwise exactly one `onTap`
is emitted and this tap becomes the recorded entry.  The time-only
reset means a third rapid tap cannot pair with the second, but it can
still pair against the stale entry when its own timestamp is below
300 ms (see `C7_triple_tap_pairs_again`); any tap-classified release
with timestamp ≥ 300 ms after a double-tap emits `onTap`. -/
theorem C7_double_tap_emission (s : EngineState) (pid : ℕ) (pt : Pointer)
    (x y t : ℚ) (hp : s.pointers = [(pid, pt)])
    (hf : s.longPressFired = false)
    (hdx : |x - pt.startX| ≤ 10) (hdy : |y - pt.startY| ≤ 10) :
    (t - s.lastTapTime < 300 ∧ |x - s.lastTapX| < 40 ∧
        |y - s.lastTapY| < 40 →
      (onUp s pid x y t).2 = [GEvent.doubleTap x y, GEvent.panEnd] ∧
      (onUp s pid x y t).1.lastTapTime = 0 ∧
      (onUp s pid x y t).1.lastTapX = s.lastTapX ∧
      (onUp s pid x y t).1.lastTapY = s.lastTapY) ∧
    (¬(t - s.lastTapTime < 300 ∧ |x - s.lastTapX| < 40 ∧
        |y - s.lastTapY| < 40) →
      (onUp s pid x y t).2 = [GEvent.tap x y, GEvent.panEnd] ∧
      (onUp s pid x y t).1.lastTapTime = t ∧
      (onUp s pid x y t).1.lastTapX = x ∧
      (onUp s pid x y t).1.lastTapY = y) ∧
    (s.lastTapTime = 0 → 300 ≤ t →
      (onUp s pid x y t).2 = [GEvent.tap x y, GEvent.panEnd]) := by
  have hmoved : ¬(10 < |x - pt.startX| ∨ 10 < |y - pt.startY|) := by
    push_neg
    exact ⟨hdx, hdy⟩
  refine ⟨fun hpair => ?_, fun hpair => ?_, fun hz ht => ?_⟩
  · unfold onUp
    rw [hp]
    norm_num [jmapGet, jmapDelete, hf, hmoved, hpair]
  · unfold onUp
    rw [hp]
    norm_num [jmapGet, jmapDelete, hf, hmoved, hpair]
  · have hpair : ¬(t - s.lastTapTime < 300 ∧ |x - s.lastTapX| < 40 ∧
        |y - s.lastTapY| < 40) := by
      rw [hz]
      intro hc
      have h1 := hc.1
      rw [sub_zero] at h1
      linarith
    unfold onUp
    rw [hp]
    norm_num [jmapGet, jmapDelete, hf, hmoved, hpair]

/-- C7, witness: after a tap at (100,100) recorded at t = 10, a second
tap at (110,105) released at t = 210 emits exactly one `onDoubleTap`. -/
theorem C7_witness :
    (onUp S7 1 110 105 210).2 =
      [GEvent.doubleTap 110 105, GEvent.panEnd] := by
  have hp : S7.pointers = [(1, (⟨110, 105, 110, 105⟩ : Pointer))] := by
    norm_num [S7, engineRun, engineStep, onDown, onUp, jmapGet, jmapSet,
      jmapDelete, initEngine]
  have hf : S7.longPressFired = false := by
    norm_num [S7, engineRun, engineStep, onDown, onUp, jmapGet, jmapSet,
      jmapDelete, initEngine]
  have ht : S7.lastTapTime = 10 ∧ S7.lastTapX = 100 ∧ S7.lastTapY = 100 := by
    norm_num [S7, engineRun, engineStep, onDown, onUp, jmapGet, jmapSet,
      jmapDelete, initEngine]
  refine ((C7_double_tap_emission S7 1 _ 110 105 210 hp hf
    (by norm_num) (by norm_num)).1 ?_).1
  rw [ht.1, ht.2.1, ht.2.2]
  norm_num

/-- C8: on every move with exactly two active contacts, the scale
reported to `onPinch` equals `baselineScale × (liveDist /
baselineDist)` where a zero recorded baseline distance is replaced by
1, so the division never has a zero denominator; and the reported
event is unchanged when the two contacts sit in the opposite insertion
order in the pointer map (symmetry under contact-order swap). -/
theorem C8_pinch_scale_formula (s s2 : EngineState) (ka kb : ℕ)
    (pa pb : Pointer) (x y t : ℚ) (hk : ka ≠ kb)
    (hp : s.pointers = [(ka, pa), (kb, pb)])
    (hp2 : s2 = { s with pointers := [(kb, pb), (ka, pa)] }) :
    (onMove s ka x y t).2 =
      [GEvent.pinch
        (s.initPinchScale *
          (dist { pa with x := x, y := y } pb /
            (if s.initPinchDist = 0 then 1 else s.initPinchDist)))
        s.initPinchMidX s.initPinchMidY
        (midX { pa with x := x, y := y } pb - s.initPinchMidX)
        (midY { pa with x := x, y := y } pb - s.initPinchMidY)] ∧
    (onMove s2 ka x y t).2 = (onMove s ka x y t).2 ∧
    (if s.initPinchDist = 0 then (1 : ℚ) else s.initPinchDist) ≠ 0 := by
  have hk2 : kb ≠ ka := Ne.symm hk
  refine ⟨?_, ?_, ?_⟩
  · unfold onMove
    rw [hp]
    norm_num [jmapGet, jmapSet, hk2]
  · subst hp2
    unfold onMove
    rw [hp]
    norm_num [jmapGet, jmapSet, hk2, hk]
    rw [dist_comm pb { pa with x := x, y := y },
      midX_comm pb { pa with x := x, y := y },
      midY_comm pb { pa with x := x, y := y }]
    norm_num
  · split
    · norm_num
    · next h => exact h

/-- C8, witness: baseline distance 100 (contacts at (0,0) and (100,0))
at baseline scale 1, with the first finger moving to (−50,0) so the
live distance is 150, reports scale 1.5 — and the same event is
reported from the swapped contact order. -/
theorem C8_witness :
    (onMove S8 1 (-50) 0 999).2 =
      [GEvent.pinch (3/2) 50 0 (-25) 0] ∧
    (onMove S8sw 1 (-50) 0 999).2 = (onMove S8 1 (-50) 0 999).2 := by
  have h := C8_pinch_scale_formula S8 S8sw 1 2
    { x := 0, y := 0, startX := 0, startY := 0 }
    { x := 100, y := 0, startX := 100, startY := 0 }
    (-50) 0 999 (by norm_num) rfl rfl
  refine ⟨?_, h.2.1⟩
  rw [h.1]
  have hd : dist (⟨-50, 0, 0, 0⟩ : Pointer) (⟨100, 0, 100, 0⟩ : Pointer)
      = 150 := by
    unfold dist
    norm_num
  norm_num [S8, initEngine, midX, midY, hd]

end InkFlow
